import Mathlib

/-!
Shallow embedding of the HeyGen realtime control-channel client
(backend/src/heygen_websocket.ts) and of the OpenAI-to-HeyGen event bridge
(backend/src/openai_heygen_bridge.ts).

Modelling conventions:
* A JavaScript string value that may be absent (undefined) is an Option String.
* JavaScript truthiness of such a value: absent and the empty string are falsy,
  every other string is truthy.
* The outbound log of a client records, in order, exactly the messages handed
  to the underlying transport (the ws.send calls that actually happen).
* The fresh identifiers produced by generateEventId (Date.now plus
  Math.random) are modelled by an oracle stream gen : Nat -> String that is
  consumed at an index idCounter; generateEventId itself is modelled
  separately, from an explicit timestamp and the base-36 fractional digits of
  the random draw.
* Timer callbacks (setTimeout and setInterval continuations) are modelled as
  explicit transition functions that the environment may run.
-/

/-- Truthiness of a possibly absent JavaScript string: undefined and the empty
string are falsy; a non-empty string is truthy and denotes itself. -/
def jsTruthy (o : Option String) : Option String :=
  match o with
  | some s => if s = "" then none else some s
  | none => none

/-- The JavaScript expression a || b on two possibly absent strings, as used in
event.audio || event.delta and event.text || event.content, together with the
truthiness test the result immediately flows into. -/
def jsOr (a b : Option String) : Option String :=
  match jsTruthy a with
  | some s => some s
  | none => jsTruthy b

/-- Digit character of one base-36 digit, as produced by Number.toString(36):
the digits 0-9 and then the lowercase letters a-z. -/
def base36Char (d : Nat) : Char :=
  if d < 10 then Char.ofNat (48 + d) else Char.ofNat (87 + d)

/-- Character list of r.toString(36) for r = Math.random() in [0,1): the
single character 0 when the value is zero (empty fractional expansion),
otherwise the characters 0 and . followed by the base-36 digits of the
fractional expansion. -/
def jsToString36Frac (digits : List Nat) : List Char :=
  if digits = [] then ['0'] else '0' :: '.' :: digits.map base36Char

/-- JavaScript String.prototype.substring(a, b) on a character list, for
a less or equal to b: drop a characters, keep at most b - a. -/
def jsSubstring (l : List Char) (a b : Nat) : List Char :=
  (l.drop a).take (b - a)

/-- generateEventId of HeyGenWebSocketClient: the Date.now() millisecond
timestamp, an underscore, and Math.random().toString(36).substring(2, 9). -/
def generateEventId (now : Nat) (digits : List Nat) : String :=
  toString now ++ "_" ++ String.mk (jsSubstring (jsToString36Frac digits) 2 9)

/-- Outbound HeyGen command envelope: a type tag, an event_id, and the
optional audio payload carried by agent.speak and agent.speak_end. -/
structure HGEvent where
  type : String
  event_id : String
  audio : Option String := none
  deriving DecidableEq, Repr

/-- Command-sending slice of a HeyGenWebSocketClient. wsState is none when
this.ws is null, otherwise some b where b records whether readyState is OPEN.
sent is the ordered log of messages actually transmitted. gen and idCounter
model generateEventId as an oracle stream of fresh identifiers. -/
structure WSClient where
  wsState : Option Bool
  isConnected : Bool
  sent : List HGEvent
  idCounter : Nat
  gen : Nat → String

/-- isConnectionOpen: isConnected and ws.readyState equals OPEN. -/
def WSClient.isConnectionOpen (c : WSClient) : Bool :=
  c.isConnected && (c.wsState == some true)

/-- send: transmit only when this.ws exists and isConnected is true;
otherwise the attempt is logged and the event is dropped. -/
def WSClient.send (c : WSClient) (e : HGEvent) : WSClient :=
  if c.wsState.isSome && c.isConnected then { c with sent := c.sent ++ [e] } else c

/-- Draw the next fresh event identifier from the oracle stream. -/
def WSClient.genNext (c : WSClient) : String × WSClient :=
  (c.gen c.idCounter, { c with idCounter := c.idCounter + 1 })

/-- Common shape of the seven command operations: generate a fresh event_id,
build the envelope around it, hand it to send, and return the event_id to the
caller in every case. -/
def sendEnvelope (mk : String → HGEvent) (c : WSClient) : String × WSClient :=
  let p := c.genNext
  (p.1, p.2.send (mk p.1))

/-- sendSpeak: agent.speak envelope with an audio payload. -/
def sendSpeak (audio : String) : WSClient → String × WSClient :=
  sendEnvelope fun id => { type := "agent.speak", event_id := id, audio := some audio }

/-- sendSpeakEnd: agent.speak_end envelope with an optional final audio chunk. -/
def sendSpeakEnd (finalAudio : Option String) : WSClient → String × WSClient :=
  sendEnvelope fun id => { type := "agent.speak_end", event_id := id, audio := finalAudio }

/-- sendInterrupt: agent.interrupt envelope. -/
def sendInterrupt : WSClient → String × WSClient :=
  sendEnvelope fun id => { type := "agent.interrupt", event_id := id }

/-- sendStartListening: agent.start_listening envelope. -/
def sendStartListening : WSClient → String × WSClient :=
  sendEnvelope fun id => { type := "agent.start_listening", event_id := id }

/-- sendStopListening: agent.stop_listening envelope. -/
def sendStopListening : WSClient → String × WSClient :=
  sendEnvelope fun id => { type := "agent.stop_listening", event_id := id }

/-- sendAudioBufferClear: agent.audio_buffer_clear envelope. -/
def sendAudioBufferClear : WSClient → String × WSClient :=
  sendEnvelope fun id => { type := "agent.audio_buffer_clear", event_id := id }

/-- sendKeepAlive: session.keep_alive envelope. -/
def sendKeepAlive : WSClient → String × WSClient :=
  sendEnvelope fun id => { type := "session.keep_alive", event_id := id }

/-- The seven command operations of HeyGenWebSocketClient, as one alphabet so
that a statement can quantify over every command operation at once. -/
inductive CmdCall where
  | speak (audio : String)
  | speakEnd (finalAudio : Option String)
  | interrupt
  | startListening
  | stopListening
  | audioBufferClear
  | keepAlive

/-- Dispatch a command call to the corresponding operation. -/
def runCommand : CmdCall → WSClient → String × WSClient
  | .speak a, c => sendSpeak a c
  | .speakEnd fa, c => sendSpeakEnd fa c
  | .interrupt, c => sendInterrupt c
  | .startListening, c => sendStartListening c
  | .stopListening, c => sendStopListening c
  | .audioBufferClear, c => sendAudioBufferClear c
  | .keepAlive, c => sendKeepAlive c

/-- Unfolding isConnectionOpen into its two conjuncts. -/
theorem isConnectionOpen_iff {c : WSClient} :
    c.isConnectionOpen = true ↔ c.isConnected = true ∧ c.wsState = some true := by
  simp [WSClient.isConnectionOpen]

/-- A command operation on an open connection transmits exactly one envelope
carrying the freshly generated identifier. -/
theorem sendEnvelope_of_open {c : WSClient} (h : c.isConnectionOpen = true)
    (mk : String → HGEvent) :
    sendEnvelope mk c =
      (c.gen c.idCounter,
        { c with idCounter := c.idCounter + 1,
                 sent := c.sent ++ [mk (c.gen c.idCounter)] }) := by
  obtain ⟨h1, h2⟩ := isConnectionOpen_iff.mp h
  simp [sendEnvelope, WSClient.genNext, WSClient.send, h1, h2]

/-- A command operation while isConnected is false transmits nothing but still
consumes and returns a fresh identifier. -/
theorem sendEnvelope_of_closed {c : WSClient} (h : c.isConnected = false)
    (mk : String → HGEvent) :
    sendEnvelope mk c = (c.gen c.idCounter, { c with idCounter := c.idCounter + 1 }) := by
  simp [sendEnvelope, WSClient.genNext, WSClient.send, h]

/-- Claim C6: every command operation of HeyGenWebSocketClient invoked while
the connection is not Connected transmits nothing, raises no exception (the
operation is total), and still returns the freshly generated event identifier
to the caller, advancing the identifier supply by one. -/
theorem C6_command_while_disconnected (cmd : CmdCall) (c : WSClient)
    (hc : c.isConnected = false) :
    (runCommand cmd c).1 = c.gen c.idCounter ∧
    (runCommand cmd c).2.sent = c.sent ∧
    (runCommand cmd c).2 = { c with idCounter := c.idCounter + 1 } := by
  cases cmd <;>
    simp [runCommand, sendSpeak, sendSpeakEnd, sendInterrupt, sendStartListening,
      sendStopListening, sendAudioBufferClear, sendKeepAlive,
      sendEnvelope_of_closed hc]

/-- A disconnected client used as a concrete witness input. -/
def cDisc : WSClient :=
  { wsState := none, isConnected := false, sent := [], idCounter := 0,
    gen := fun n => toString n }

/-- Witness for claim C6 at a concrete disconnected client and the interrupt
command. -/
theorem C6_command_while_disconnected_witness :
    cDisc.isConnected = false ∧
    ((runCommand CmdCall.interrupt cDisc).1 = cDisc.gen cDisc.idCounter ∧
     (runCommand CmdCall.interrupt cDisc).2.sent = cDisc.sent ∧
     (runCommand CmdCall.interrupt cDisc).2 = { cDisc with idCounter := cDisc.idCounter + 1 }) :=
  ⟨rfl, C6_command_while_disconnected CmdCall.interrupt cDisc rfl⟩

/-- Claim C4, counterexample: when Math.random() returns 0 its base-36
rendering is the single character 0, the substring(2, 9) suffix is empty, and
the generated identifier is the timestamp followed by a bare underscore; no
7-character suffix exists. -/
theorem C4_event_id_counterexample :
    generateEventId 1700000000000 [] = "1700000000000_" ∧
    ¬ ∃ suf : String, suf.length = 7 ∧
        generateEventId 1700000000000 [] = toString (1700000000000 : Nat) ++ "_" ++ suf := by
  refine ⟨rfl, ?_⟩
  rintro ⟨suf, h7, heq⟩
  have hfull : ("1700000000000_" : String) = toString (1700000000000 : Nat) ++ "_" ++ suf := by
    calc ("1700000000000_" : String) = generateEventId 1700000000000 [] := rfl
    _ = toString (1700000000000 : Nat) ++ "_" ++ suf := heq
  have hlen := congrArg String.length hfull
  have h13 : (toString (1700000000000 : Nat)).length = 13 := rfl
  have h14 : ("1700000000000_" : String).length = 14 := rfl
  have h1u : ("_" : String).length = 1 := rfl
  rw [String.length_append, String.length_append, h13, h14, h7, h1u] at hlen
  omega

/-- Claim C4, amended: the generated identifier is the millisecond timestamp,
an underscore, and the first at most 7 base-36 digit characters of the random
fractional expansion; the suffix has exactly 7 characters, all alphanumeric,
whenever the expansion has at least 7 digits. -/
theorem C4_event_id_format (now : Nat) (digits : List Nat)
    (hlen : 7 ≤ digits.length) (hd : ∀ d ∈ digits, d < 36) :
    generateEventId now digits =
      toString now ++ "_" ++ String.mk ((digits.take 7).map base36Char) ∧
    (String.mk ((digits.take 7).map base36Char)).length = 7 ∧
    ∀ ch ∈ (digits.take 7).map base36Char, ch.isAlphanum = true := by
  have hne : digits ≠ [] := by
    intro h
    rw [h] at hlen
    simp at hlen
  refine ⟨?_, ?_, ?_⟩
  · simp [generateEventId, jsToString36Frac, jsSubstring, hne, List.map_take]
  · have hl : ((digits.take 7).map base36Char).length = 7 := by
      simp [List.length_take]
      omega
    simpa [String.length] using hl
  · intro ch hch
    rw [List.mem_map] at hch
    obtain ⟨d, hdmem, rfl⟩ := hch
    have hd36 : d < 36 := hd d (List.take_subset 7 digits hdmem)
    interval_cases d <;> decide

/-- Witness for the amended claim C4 at a concrete timestamp and a concrete
7-digit expansion. -/
theorem C4_event_id_format_witness :
    7 ≤ ([1, 2, 3, 4, 5, 6, 7] : List Nat).length ∧
    (generateEventId 5 [1, 2, 3, 4, 5, 6, 7] =
      toString (5 : Nat) ++ "_" ++ String.mk ((([1, 2, 3, 4, 5, 6, 7] : List Nat).take 7).map base36Char) ∧
    (String.mk ((([1, 2, 3, 4, 5, 6, 7] : List Nat).take 7).map base36Char)).length = 7 ∧
    ∀ ch ∈ (([1, 2, 3, 4, 5, 6, 7] : List Nat).take 7).map base36Char, ch.isAlphanum = true) :=
  ⟨by decide, C4_event_id_format 5 [1, 2, 3, 4, 5, 6, 7] (by decide) (by decide)⟩

/-- Socket lifecycle phase: no socket, a connect in flight, or an open
socket. -/
inductive ConnPhase where
  | idle
  | connecting
  | opened
  deriving DecidableEq, Repr

/-- Connection-lifecycle slice of a HeyGenWebSocketClient: the isConnected
flag, the reconnect attempt counter, the heartbeat interval handle
(heartbeatHandle) together with the number of live interval timers
(heartbeatLive, which can differ from the handle only if a timer leaks), the
at most one scheduled reconnect timer with its delay, and the socket phase. -/
structure WSConn where
  phase : ConnPhase
  isConnected : Bool
  reconnectAttempts : Nat
  heartbeatHandle : Bool
  heartbeatLive : Nat
  pendingReconnect : Option Nat
  deriving DecidableEq, Repr

/-- maxReconnectAttempts of HeyGenWebSocketClient. -/
def maxReconnectAttempts : Nat := 5

/-- reconnectDelay (the base backoff duration, in milliseconds). -/
def reconnectDelay : Nat := 1000

/-- startHeartbeat: install a new interval timer and keep its handle. -/
def startHeartbeat (s : WSConn) : WSConn :=
  { s with heartbeatHandle := true, heartbeatLive := s.heartbeatLive + 1 }

/-- stopHeartbeat: clear the interval behind the handle, if any. -/
def stopHeartbeat (s : WSConn) : WSConn :=
  if s.heartbeatHandle then
    { s with heartbeatHandle := false, heartbeatLive := s.heartbeatLive - 1 }
  else s

/-- connect(): create a socket and register its handlers; nothing else
changes until the socket reports open, close or error. -/
def connectStart (s : WSConn) : WSConn :=
  { s with phase := ConnPhase.connecting }

/-- The open handler: set isConnected, reset the attempt counter to zero,
start the heartbeat. -/
def handleOpen (s : WSConn) : WSConn :=
  startHeartbeat
    { s with phase := ConnPhase.opened, isConnected := true, reconnectAttempts := 0 }

/-- The close handler with closure code code: clear isConnected, stop the
heartbeat, and, if the code is not the deliberate-closure code 1000 and the
attempt counter is below the maximum, schedule a reconnect timer whose delay
is reconnectDelay times the current (pre-increment) attempt counter. -/
def handleClose (code : Nat) (s : WSConn) : WSConn :=
  if code ≠ 1000 ∧ s.reconnectAttempts < maxReconnectAttempts then
    { stopHeartbeat { s with phase := ConnPhase.idle, isConnected := false } with
      pendingReconnect := some (reconnectDelay * s.reconnectAttempts) }
  else
    stopHeartbeat { s with phase := ConnPhase.idle, isConnected := false }

/-- The reconnect timer firing: increment the attempt counter and call
connect() again. Without a pending timer there is nothing to run. -/
def fireReconnect (s : WSConn) : WSConn :=
  match s.pendingReconnect with
  | some _ =>
      connectStart
        { s with pendingReconnect := none, reconnectAttempts := s.reconnectAttempts + 1 }
  | none => s

/-- disconnect(): stop the heartbeat, close the socket with the deliberate
code 1000 and drop the reference, clear isConnected. A previously scheduled
reconnect timer is not cancelled. -/
def disconnectClient (s : WSConn) : WSConn :=
  { stopHeartbeat s with phase := ConnPhase.idle, isConnected := false }

/-- A freshly constructed client: no socket, not connected, zero attempts,
no heartbeat, no pending reconnect. -/
def initConn : WSConn :=
  { phase := ConnPhase.idle, isConnected := false, reconnectAttempts := 0,
    heartbeatHandle := false, heartbeatLive := 0, pendingReconnect := none }

/-- State after the nth consecutive abnormal closure (close code 1006) with no
successful open in between: the client connects and opens once, then each
cycle lets the scheduled reconnect timer (if any) fire and the resulting
connection attempt close abnormally. -/
def closeSeq : Nat → WSConn
  | 0 => handleOpen (connectStart initConn)
  | n + 1 => handleClose 1006 (fireReconnect (closeSeq n))

/-- Claim C2, counterexample: the first abnormal closure schedules its
reconnection attempt with a delay of 0 milliseconds (the delay is computed
from the attempt counter before the counter is incremented), not the
1 times 1000 milliseconds the claim requires. -/
theorem C2_backoff_counterexample :
    (closeSeq 1).pendingReconnect = some 0 ∧ (0 : Nat) ≠ 1 * 1000 := by
  exact ⟨by decide, by decide⟩

/-- Claim C2, amended: for every n from 1 to 5, the nth consecutive abnormal
closure schedules its reconnection attempt with a delay of exactly
(n - 1) times 1000 milliseconds: the delay multiplier is the attempt counter
read before the timer callback increments it, so the delays are 0s, 1s, 2s,
3s, 4s. -/
theorem C2_backoff_shape (n : Nat) (h1 : 1 ≤ n) (h5 : n ≤ 5) :
    (closeSeq n).pendingReconnect = some ((n - 1) * reconnectDelay) := by
  interval_cases n <;> decide

/-- Witness for the amended claim C2 at n = 3. -/
theorem C2_backoff_shape_witness :
    1 ≤ 3 ∧ 3 ≤ 5 ∧ (closeSeq 3).pendingReconnect = some ((3 - 1) * reconnectDelay) :=
  ⟨by decide, by decide, C2_backoff_shape 3 (by decide) (by decide)⟩

/-- Claim C5: after 5 consecutive abnormal closures with no successful open in
between, the 6th abnormal closure schedules no further reconnection attempt:
no reconnect timer is pending, the client is disconnected, the attempt counter
has reached the maximum of 5, and running the (absent) reconnect timer changes
nothing, so the channel stays disconnected until an explicit new connect()
call. -/
theorem C5_reconnect_bound :
    (closeSeq 6).pendingReconnect = none ∧
    (closeSeq 6).isConnected = false ∧
    (closeSeq 6).reconnectAttempts = 5 ∧
    fireReconnect (closeSeq 6) = closeSeq 6 := by
  decide

/-- One transition of the connection lifecycle, as driven by this repository:
connect() is invoked on an idle client (the HTTP layer calls it once at
session creation, afterwards only the reconnect timer does), a socket that is
connecting may report open, a live socket may close with any code, a pending
reconnect timer may fire once the previous socket has closed, and disconnect()
may be called at any time. -/
inductive ConnStep : WSConn → WSConn → Prop where
  | connect (s : WSConn) : s.phase = ConnPhase.idle → ConnStep s (connectStart s)
  | openEvt (s : WSConn) : s.phase = ConnPhase.connecting → ConnStep s (handleOpen s)
  | closeEvt (s : WSConn) (code : Nat) :
      s.phase ≠ ConnPhase.idle → ConnStep s (handleClose code s)
  | reconnectTimer (s : WSConn) (d : Nat) :
      s.pendingReconnect = some d → s.phase = ConnPhase.idle → ConnStep s (fireReconnect s)
  | disconnectCall (s : WSConn) : ConnStep s (disconnectClient s)

/-- Reachability from a freshly constructed client. -/
def ConnReachable (s : WSConn) : Prop :=
  Relation.ReflTransGen ConnStep initConn s

/-- The heartbeat invariant: the client is connected exactly in the opened
phase, the interval handle is held exactly while connected, and the number of
live interval timers is one while connected and zero otherwise. -/
def ConnInv (s : WSConn) : Prop :=
  (s.isConnected = true ↔ s.phase = ConnPhase.opened) ∧
  s.heartbeatHandle = s.isConnected ∧
  s.heartbeatLive = (if s.isConnected then 1 else 0)

/-- The initial state satisfies the heartbeat invariant. -/
theorem connInv_init : ConnInv initConn := by
  refine ⟨?_, rfl, rfl⟩
  decide

/-- Field values of the close handler: the socket is gone, the client is
disconnected, the heartbeat handle is cleared, one live timer is cancelled
when a handle was held, and the attempt counter is untouched. -/
theorem handleClose_fields (code : Nat) (s : WSConn) :
    (handleClose code s).phase = ConnPhase.idle ∧
    (handleClose code s).isConnected = false ∧
    (handleClose code s).heartbeatHandle = false ∧
    (handleClose code s).heartbeatLive
      = s.heartbeatLive - (if s.heartbeatHandle then 1 else 0) ∧
    (handleClose code s).reconnectAttempts = s.reconnectAttempts := by
  unfold handleClose stopHeartbeat
  split <;> split <;> simp_all

/-- Field values of disconnect(): like a deliberate close, and the pending
reconnect timer is left as it was. -/
theorem disconnectClient_fields (s : WSConn) :
    (disconnectClient s).phase = ConnPhase.idle ∧
    (disconnectClient s).isConnected = false ∧
    (disconnectClient s).heartbeatHandle = false ∧
    (disconnectClient s).heartbeatLive
      = s.heartbeatLive - (if s.heartbeatHandle then 1 else 0) := by
  unfold disconnectClient stopHeartbeat
  split <;> simp_all

/-- Every connection-lifecycle step preserves the heartbeat invariant. -/
theorem connInv_step {s s' : WSConn} (h : ConnInv s) (hs : ConnStep s s') : ConnInv s' := by
  obtain ⟨h1, h2, h3⟩ := h
  cases hs with
  | connect hp =>
      have hic : s.isConnected = false := by
        cases hc : s.isConnected
        · rfl
        · have hop := h1.mp hc
          rw [hp] at hop
          exact absurd hop (by decide)
      exact ⟨by simp [connectStart, hic], h2, h3⟩
  | openEvt hp =>
      have hic : s.isConnected = false := by
        cases hc : s.isConnected
        · rfl
        · have hop := h1.mp hc
          rw [hp] at hop
          exact absurd hop (by decide)
      refine ⟨?_, ?_, ?_⟩
      · simp [handleOpen, startHeartbeat]
      · simp [handleOpen, startHeartbeat]
      · simp [handleOpen, startHeartbeat, h3, hic]
  | closeEvt code hp =>
      obtain ⟨f1, f2, f3, f4, _⟩ := handleClose_fields code s
      refine ⟨?_, ?_, ?_⟩
      · rw [f1, f2]
        simp
      · rw [f3, f2]
      · rw [f4, f2, h2, h3]
        cases s.isConnected <;> simp
  | reconnectTimer d hpend hp =>
      have hic : s.isConnected = false := by
        cases hc : s.isConnected
        · rfl
        · have hop := h1.mp hc
          rw [hp] at hop
          exact absurd hop (by decide)
      refine ⟨?_, ?_, ?_⟩
      · simp [fireReconnect, hpend, connectStart, hic]
      · simp [fireReconnect, hpend, connectStart, h2]
      · simp [fireReconnect, hpend, connectStart, h3]
  | disconnectCall =>
      obtain ⟨f1, f2, f3, f4⟩ := disconnectClient_fields s
      refine ⟨?_, ?_, ?_⟩
      · rw [f1, f2]
        simp
      · rw [f3, f2]
      · rw [f4, f2, h2, h3]
        cases s.isConnected <;> simp

/-- Every reachable state satisfies the heartbeat invariant. -/
theorem connInv_reachable {s : WSConn} (h : ConnReachable s) : ConnInv s := by
  induction h with
  | refl => exact connInv_init
  | tail _ hstep ih => exact connInv_step ih hstep

/-- Claim C8: in every state of a HeyGenWebSocketClient reachable over
connect, open, close, reconnect-timer and disconnect steps, exactly one live
heartbeat interval timer exists if and only if the connection state is
Connected, and the heartbeat handle is held if and only if Connected; the
timer is started by the open handler and cancelled by the close handler and by
an explicit disconnect(). -/
theorem C8_heartbeat_iff_connected (s : WSConn) (h : ConnReachable s) :
    (s.heartbeatLive = 1 ↔ s.isConnected = true) ∧
    s.heartbeatHandle = s.isConnected := by
  obtain ⟨_, h2, h3⟩ := connInv_reachable h
  refine ⟨?_, h2⟩
  rw [h3]
  cases s.isConnected <;> simp

/-- Witness for claim C8 at the concrete reachable state obtained by a
connect() call followed by the open event: one heartbeat timer is live and the
client is connected. -/
theorem C8_heartbeat_iff_connected_witness :
    ConnReachable (handleOpen (connectStart initConn)) ∧
    (((handleOpen (connectStart initConn)).heartbeatLive = 1 ↔
        (handleOpen (connectStart initConn)).isConnected = true) ∧
      (handleOpen (connectStart initConn)).heartbeatHandle
        = (handleOpen (connectStart initConn)).isConnected) := by
  have hr : ConnReachable (handleOpen (connectStart initConn)) :=
    Relation.ReflTransGen.tail
      (Relation.ReflTransGen.tail Relation.ReflTransGen.refl
        (ConnStep.connect initConn rfl))
      (ConnStep.openEvt (connectStart initConn) rfl)
  exact ⟨hr, C8_heartbeat_iff_connected _ hr⟩

/-- Inbound OpenAI event as consumed by the bridge: a type tag and the
optional payload fields the bridge reads. -/
structure OAIEvent where
  type : String
  text : Option String := none
  audio : Option String := none
  content : Option String := none
  delta : Option String := none
  transcript : Option String := none
  deriving DecidableEq, Repr

/-- The audio payload of an audio-chunk event: event.audio || event.delta
under JavaScript truthiness. -/
def audioPayload (e : OAIEvent) : Option String :=
  jsOr e.audio e.delta

/-- OpenAIHeyGenBridge state: the nullable HeyGen client reference, the
identifier of the in-flight speech command, and the listening flag. -/
structure Bridge where
  client : Option WSClient
  currentSpeakEventId : Option String
  isListening : Bool

/-- handleOpenAIAudio: if no speech is in flight, start one and record the
identifier returned by sendSpeak; otherwise send the chunk under a fresh
identifier and leave currentSpeakEventId unchanged. -/
def Bridge.handleOpenAIAudio (b : Bridge) (audio : String) : Bridge :=
  match b.client with
  | none => b
  | some c =>
      match b.currentSpeakEventId with
      | none =>
          let r := sendSpeak audio c
          { b with client := some r.2, currentSpeakEventId := some r.1 }
      | some _ =>
          let r := sendSpeak audio c
          { b with client := some r.2 }

/-- handleOpenAIResponseDone: if a speech is in flight, send speak_end and
clear currentSpeakEventId. -/
def Bridge.handleOpenAIResponseDone (b : Bridge) : Bridge :=
  match b.client with
  | none => b
  | some c =>
      match b.currentSpeakEventId with
      | some _ =>
          { b with client := some (sendSpeakEnd none c).2, currentSpeakEventId := none }
      | none => b

/-- handleUserTextInput: the text itself is only logged; if not already
listening, send start_listening and set isListening; then unconditionally
send audio_buffer_clear. -/
def Bridge.handleUserTextInput (b : Bridge) (_text : Option String) : Bridge :=
  match b.client with
  | none => b
  | some c =>
      let c1 := if b.isListening then c else (sendStartListening c).2
      { b with client := some (sendAudioBufferClear c1).2, isListening := true }

/-- handleUserAudioInput: interrupt an in-flight speech and clear its
identifier, then start the listening animation if not already listening. -/
def Bridge.handleUserAudioInput (b : Bridge) : Bridge :=
  match b.client with
  | none => b
  | some c =>
      let c1 := match b.currentSpeakEventId with
        | some _ => (sendInterrupt c).2
        | none => c
      let c2 := if b.isListening then c1 else (sendStartListening c1).2
      { b with client := some c2, currentSpeakEventId := none, isListening := true }

/-- handleUserAudioStop: stop the listening animation if currently
listening. -/
def Bridge.handleUserAudioStop (b : Bridge) : Bridge :=
  match b.client with
  | none => b
  | some c =>
      if b.isListening then
        { b with client := some (sendStopListening c).2, isListening := false }
      else b

/-- processOpenAIEvent: skip everything when no client is attached or the
connection is not open; otherwise dispatch on the event type exactly as the
switch does. Text chunks, final transcripts and error events are logged only;
unknown types fall through unhandled. -/
def Bridge.processOpenAIEvent (b : Bridge) (e : OAIEvent) : Bridge :=
  match b.client with
  | none => b
  | some c =>
      if c.isConnectionOpen then
        if e.type = "response.audio" ∨ e.type = "response.audio.delta" then
          match audioPayload e with
          | some a => b.handleOpenAIAudio a
          | none => b
        else if e.type = "response.text" ∨ e.type = "response.text.delta" then b
        else if e.type = "response.audio_transcript.done" ∨ e.type = "response.text.done" then b
        else if e.type = "response.done" then b.handleOpenAIResponseDone
        else if e.type = "input_text" then b.handleUserTextInput (jsOr e.text e.content)
        else if e.type = "input_audio" then b.handleUserAudioInput
        else if e.type = "input_audio.stop" then b.handleUserAudioStop
        else b
      else b

/-- Fold processOpenAIEvent over a sequence of inbound events. -/
def processEvents (b : Bridge) (es : List OAIEvent) : Bridge :=
  es.foldl Bridge.processOpenAIEvent b

/-- speakText up to its scheduled continuation: throws when no client is
attached; otherwise sends an empty speak command and records the returned
identifier as currentSpeakEventId. -/
def Bridge.speakTextNow (b : Bridge) : Except String Bridge :=
  match b.client with
  | none => Except.error "HeyGen client not available"
  | some c =>
      let r := sendSpeak "" c
      Except.ok { b with client := some r.2, currentSpeakEventId := some r.1 }

/-- The continuation speakText schedules after a fixed one-second delay: if a
speech identifier is still recorded, send speak_end (when a client is still
attached) and clear the identifier; otherwise do nothing. -/
def Bridge.speakTextTimeout (b : Bridge) : Bridge :=
  match b.currentSpeakEventId with
  | some _ =>
      match b.client with
      | some c =>
          { b with client := some (sendSpeakEnd none c).2, currentSpeakEventId := none }
      | none => { b with currentSpeakEventId := none }
  | none => b

/-- interrupt(): no-op without a client or without an in-flight speech;
otherwise send agent.interrupt and clear currentSpeakEventId. -/
def Bridge.interrupt (b : Bridge) : Bridge :=
  match b.client with
  | none => b
  | some c =>
      match b.currentSpeakEventId with
      | some _ =>
          { b with client := some (sendInterrupt c).2, currentSpeakEventId := none }
      | none => b

/-- startListening(): no-op without a client or when already listening;
otherwise send agent.start_listening and set isListening. -/
def Bridge.startListening (b : Bridge) : Bridge :=
  match b.client with
  | none => b
  | some c =>
      if b.isListening then b
      else { b with client := some (sendStartListening c).2, isListening := true }

/-- stopListening(): no-op without a client or when not listening; otherwise
send agent.stop_listening and clear isListening. -/
def Bridge.stopListening (b : Bridge) : Bridge :=
  match b.client with
  | none => b
  | some c =>
      if b.isListening then
        { b with client := some (sendStopListening c).2, isListening := false }
      else b

/-- The state snapshot returned by getState(). -/
structure BridgeSnapshot where
  isConnected : Bool
  isSpeaking : Bool
  isListening : Bool
  currentSpeakEventId : Option String
  deriving DecidableEq, Repr

/-- getState(): isConnected reflects the live isConnectionOpen of the
attached client (false without one), and isSpeaking is the presence of an
in-flight speech identifier. -/
def Bridge.getState (b : Bridge) : BridgeSnapshot :=
  { isConnected := match b.client with
      | some c => c.isConnectionOpen
      | none => false,
    isSpeaking := b.currentSpeakEventId.isSome,
    isListening := b.isListening,
    currentSpeakEventId := b.currentSpeakEventId }

/-- On an open channel, an audio-chunk event with a truthy payload is routed
to handleOpenAIAudio. -/
theorem processOpenAIEvent_audio {b : Bridge} {c : WSClient} {e : OAIEvent} {a : String}
    (hb : b.client = some c) (hopen : c.isConnectionOpen = true)
    (ht : e.type = "response.audio" ∨ e.type = "response.audio.delta")
    (ha : audioPayload e = some a) :
    b.processOpenAIEvent e = b.handleOpenAIAudio a := by
  simp [Bridge.processOpenAIEvent, hb, hopen, ht, ha]

/-- The agent.speak envelope carrying one audio chunk under identifier id. -/
def speakEvt (id : String) (a : String) : HGEvent :=
  { type := "agent.speak", event_id := id, audio := some a }

/-- Client state after transmitting one agent.speak envelope for chunk a on an
open connection: the chunk is appended to the log and one identifier is
consumed. -/
def afterSpeak (c : WSClient) (a : String) : WSClient :=
  { c with idCounter := c.idCounter + 1, sent := c.sent ++ [speakEvt (c.gen c.idCounter) a] }

/-- First audio chunk while no speech is in flight: one agent.speak envelope
is transmitted and its fresh identifier becomes currentSpeakEventId. -/
theorem handleOpenAIAudio_first {b : Bridge} {c : WSClient}
    (hb : b.client = some c) (hopen : c.isConnectionOpen = true)
    (hid : b.currentSpeakEventId = none) (a : String) :
    b.handleOpenAIAudio a =
      { b with client := some (afterSpeak c a),
               currentSpeakEventId := some (c.gen c.idCounter) } := by
  simp [Bridge.handleOpenAIAudio, hb, hid, sendSpeak, sendEnvelope_of_open hopen,
    afterSpeak, speakEvt]

/-- Further audio chunk while a speech is in flight: one agent.speak envelope
is transmitted under a fresh identifier and currentSpeakEventId is left
unchanged. -/
theorem handleOpenAIAudio_more {b : Bridge} {c : WSClient} {i : String}
    (hb : b.client = some c) (hopen : c.isConnectionOpen = true)
    (hid : b.currentSpeakEventId = some i) (a : String) :
    b.handleOpenAIAudio a = { b with client := some (afterSpeak c a) } := by
  simp [Bridge.handleOpenAIAudio, hb, hid, sendSpeak, sendEnvelope_of_open hopen,
    afterSpeak, speakEvt]

/-- afterSpeak keeps the connection open. -/
theorem afterSpeak_isConnectionOpen (c : WSClient) (a : String) :
    (afterSpeak c a).isConnectionOpen = c.isConnectionOpen := rfl

/-- Processing any number of audio-chunk events with truthy payloads on an
open channel leaves an in-flight speech identifier unchanged, keeps the
channel open, and consumes one fresh command identifier per chunk. -/
theorem processEvents_audio_keeps_id (es : List OAIEvent) :
    ∀ (b : Bridge) (c : WSClient) (i : String),
      b.client = some c → c.isConnectionOpen = true →
      b.currentSpeakEventId = some i →
      (∀ x ∈ es, (x.type = "response.audio" ∨ x.type = "response.audio.delta") ∧
        audioPayload x ≠ none) →
      (processEvents b es).currentSpeakEventId = some i ∧
      ∃ c2 : WSClient, (processEvents b es).client = some c2 ∧
        c2.isConnectionOpen = true ∧ c2.idCounter = c.idCounter + es.length := by
  induction es with
  | nil =>
      intro b c i hb hopen hid _
      exact ⟨hid, c, hb, hopen, by simp [processEvents]⟩
  | cons x xs ih =>
      intro b c i hb hopen hid hall
      obtain ⟨hx, hpay⟩ := hall x (List.mem_cons_self x xs)
      obtain ⟨a, ha⟩ := Option.ne_none_iff_exists'.mp hpay
      have hstep : b.processOpenAIEvent x = b.handleOpenAIAudio a :=
        processOpenAIEvent_audio hb hopen hx ha
      have hmore := handleOpenAIAudio_more hb hopen hid a
      have h1 : processEvents b (x :: xs) = processEvents (b.processOpenAIEvent x) xs := rfl
      rw [h1, hstep, hmore]
      have htail : ∀ y ∈ xs, (y.type = "response.audio" ∨ y.type = "response.audio.delta") ∧
          audioPayload y ≠ none := fun y hy => hall y (List.mem_cons_of_mem x hy)
      have hopen1 : (afterSpeak c a).isConnectionOpen = true := by
        rw [afterSpeak_isConnectionOpen]
        exact hopen
      obtain ⟨hidr, c2, hc2, hopen2, hcount⟩ :=
        ih { b with client := some (afterSpeak c a) } (afterSpeak c a) i rfl hopen1 hid htail
      refine ⟨hidr, c2, hc2, hopen2, ?_⟩
      have hc1 : (afterSpeak c a).idCounter = c.idCounter + 1 := rfl
      rw [hc1] at hcount
      simp only [List.length_cons]
      omega

/-- Claim C1: for a sequence of audio-chunk events (response.audio or
response.audio.delta, each with a truthy audio or delta payload) processed by
processOpenAIEvent on a bridge with an attached open channel and no speech in
flight, and with no intervening response-complete, interrupt or provider
events, after the first chunk isSpeaking is true and currentSpeakEventId
equals the identifier returned by the first chunk call to sendSpeak, and every
subsequent chunk leaves it unchanged while being sent under a new command
identifier (one fresh identifier is consumed per chunk). -/
theorem C1_speech_id_tracking (b : Bridge) (c : WSClient) (e : OAIEvent)
    (es : List OAIEvent)
    (hb : b.client = some c) (hopen : c.isConnectionOpen = true)
    (hid : b.currentSpeakEventId = none)
    (he : (e.type = "response.audio" ∨ e.type = "response.audio.delta") ∧
      audioPayload e ≠ none)
    (hes : ∀ x ∈ es, (x.type = "response.audio" ∨ x.type = "response.audio.delta") ∧
      audioPayload x ≠ none) :
    (processEvents b (e :: es)).currentSpeakEventId = some (c.gen c.idCounter) ∧
    (processEvents b (e :: es)).getState.isSpeaking = true ∧
    ∃ c2 : WSClient, (processEvents b (e :: es)).client = some c2 ∧
      c2.idCounter = c.idCounter + 1 + es.length := by
  obtain ⟨ht, hpay⟩ := he
  obtain ⟨a, ha⟩ := Option.ne_none_iff_exists'.mp hpay
  have hstep : b.processOpenAIEvent e = b.handleOpenAIAudio a :=
    processOpenAIEvent_audio hb hopen ht ha
  have hfirst := handleOpenAIAudio_first hb hopen hid a
  have h1 : processEvents b (e :: es) = processEvents (b.processOpenAIEvent e) es := rfl
  rw [h1, hstep, hfirst]
  have hopen1 : (afterSpeak c a).isConnectionOpen = true := by
    rw [afterSpeak_isConnectionOpen]
    exact hopen
  obtain ⟨hidr, c2, hc2, _, hcount⟩ :=
    processEvents_audio_keeps_id es
      { b with client := some (afterSpeak c a), currentSpeakEventId := some (c.gen c.idCounter) }
      (afterSpeak c a) (c.gen c.idCounter) rfl hopen1 rfl hes
  refine ⟨hidr, ?_, c2, hc2, ?_⟩
  · simp [Bridge.getState, hidr]
  · have hc1 : (afterSpeak c a).idCounter = c.idCounter + 1 := rfl
    rw [hc1] at hcount
    omega

/-- An open client used as a concrete witness input. -/
def cOpen : WSClient :=
  { wsState := some true, isConnected := true, sent := [], idCounter := 0,
    gen := fun n => toString n }

/-- A bridge with an attached open channel, idle and not listening. -/
def bOpen : Bridge :=
  { client := some cOpen, currentSpeakEventId := none, isListening := false }

/-- A response.audio event with a truthy audio payload. -/
def eAudio1 : OAIEvent := { type := "response.audio", audio := some "aaa" }

/-- A response.audio.delta event with a truthy delta payload. -/
def eAudio2 : OAIEvent := { type := "response.audio.delta", delta := some "bbb" }

/-- Witness for claim C1 at a concrete bridge and a two-chunk sequence. -/
theorem C1_speech_id_tracking_witness :
    bOpen.currentSpeakEventId = none ∧
    (processEvents bOpen [eAudio1, eAudio2]).currentSpeakEventId = some "0" ∧
    (processEvents bOpen [eAudio1, eAudio2]).getState.isSpeaking = true := by
  have h := C1_speech_id_tracking bOpen cOpen eAudio1 [eAudio2] rfl rfl rfl
    ⟨Or.inl rfl, by decide⟩
    (by
      intro x hx
      rw [List.mem_singleton] at hx
      subst hx
      exact ⟨Or.inr rfl, by decide⟩)
  exact ⟨rfl, h.1, h.2.1⟩

/-- The user text input event of Scenario A. -/
def inputTextHello : OAIEvent := { type := "input_text", text := some "hello" }

/-- The agent.start_listening envelope under identifier id. -/
def startListeningEvt (id : String) : HGEvent :=
  { type := "agent.start_listening", event_id := id }

/-- The agent.audio_buffer_clear envelope under identifier id. -/
def bufferClearEvt (id : String) : HGEvent :=
  { type := "agent.audio_buffer_clear", event_id := id }

/-- Claim C7: a bridge with an attached open channel and isListening false
processing the event with type input_text and text hello issues exactly two
outbound commands, agent.start_listening and then agent.audio_buffer_clear,
and isListening becomes true; the in-flight speech identifier is untouched. -/
theorem C7_input_text_scenario (b : Bridge) (c : WSClient)
    (hb : b.client = some c) (hopen : c.isConnectionOpen = true)
    (hl : b.isListening = false) :
    (b.processOpenAIEvent inputTextHello).isListening = true ∧
    (b.processOpenAIEvent inputTextHello).client.map WSClient.sent =
      some (c.sent ++ [startListeningEvt (c.gen c.idCounter),
        bufferClearEvt (c.gen (c.idCounter + 1))]) ∧
    (b.processOpenAIEvent inputTextHello).currentSpeakEventId = b.currentSpeakEventId := by
  obtain ⟨hic, hws⟩ := isConnectionOpen_iff.mp hopen
  refine ⟨?_, ?_, ?_⟩ <;>
    simp [Bridge.processOpenAIEvent, hb, hopen, inputTextHello,
      Bridge.handleUserTextInput, hl, sendStartListening, sendAudioBufferClear,
      sendEnvelope, WSClient.genNext, WSClient.send, hic, hws,
      startListeningEvt, bufferClearEvt]

/-- Witness for claim C7 at a concrete open bridge. -/
theorem C7_input_text_scenario_witness :
    bOpen.isListening = false ∧
    (bOpen.processOpenAIEvent inputTextHello).isListening = true ∧
    (bOpen.processOpenAIEvent inputTextHello).client.map WSClient.sent =
      some [startListeningEvt "0", bufferClearEvt "1"] := by
  have h := C7_input_text_scenario bOpen cOpen rfl rfl rfl
  refine ⟨rfl, h.1, ?_⟩
  rw [h.2.1]
  rfl

/-- Claim C3, counterexample: speakText on a bridge with no attached channel
throws (HeyGen client not available), and startListening on a bridge whose
attached channel is disconnected transmits nothing yet still sets isListening
to true, a state change inconsistent with no command having been delivered. -/
theorem C3_counterexample :
    Bridge.speakTextNow { client := none, currentSpeakEventId := none, isListening := false }
      = Except.error "HeyGen client not available" ∧
    (Bridge.startListening
        { client := some cDisc, currentSpeakEventId := none, isListening := false }).isListening
      = true ∧
    (Bridge.startListening
        { client := some cDisc, currentSpeakEventId := none, isListening := false }).client.map
        WSClient.sent = some [] := by
  exact ⟨rfl, rfl, rfl⟩

/-- Claim C3, amended: on a bridge whose attached channel is not connected,
speakText, interrupt, startListening and stopListening never throw and
transmit nothing, but they update the bridge state optimistically: speakText
records the generated identifier as currentSpeakEventId, interrupt clears it,
startListening leaves isListening true and stopListening leaves it false; on
a bridge with no attached channel, interrupt, startListening and
stopListening are exact no-ops while speakText throws. -/
theorem C3_disconnected_controls :
    (∀ (b : Bridge) (c : WSClient), b.client = some c → c.isConnected = false →
      (∃ b2 : Bridge, b.speakTextNow = Except.ok b2 ∧
        b2.client.map WSClient.sent = some c.sent ∧
        b2.currentSpeakEventId = some (c.gen c.idCounter)) ∧
      b.interrupt.client.map WSClient.sent = some c.sent ∧
      b.interrupt.currentSpeakEventId = none ∧
      b.startListening.client.map WSClient.sent = some c.sent ∧
      b.startListening.isListening = true ∧
      b.stopListening.client.map WSClient.sent = some c.sent ∧
      b.stopListening.isListening = false) ∧
    (∀ b : Bridge, b.client = none →
      b.speakTextNow = Except.error "HeyGen client not available" ∧
      b.interrupt = b ∧ b.startListening = b ∧ b.stopListening = b) := by
  constructor
  · intro b c hb hc
    refine ⟨⟨{ b with client := some { c with idCounter := c.idCounter + 1 }, currentSpeakEventId := some (c.gen c.idCounter) }, ?_, ?_, ?_⟩, ?_, ?_, ?_, ?_, ?_, ?_⟩
    · simp [Bridge.speakTextNow, hb, sendSpeak, sendEnvelope_of_closed hc]
    · rfl
    · rfl
    · cases hcur : b.currentSpeakEventId <;>
        simp [Bridge.interrupt, hb, hcur, sendInterrupt, sendEnvelope_of_closed hc]
    · cases hcur : b.currentSpeakEventId <;>
        simp [Bridge.interrupt, hb, hcur, sendInterrupt, sendEnvelope_of_closed hc]
    · cases hl : b.isListening <;>
        simp [Bridge.startListening, hb, hl, sendStartListening, sendEnvelope_of_closed hc]
    · cases hl : b.isListening <;>
        simp [Bridge.startListening, hb, hl, sendStartListening, sendEnvelope_of_closed hc]
    · cases hl : b.isListening <;>
        simp [Bridge.stopListening, hb, hl, sendStopListening, sendEnvelope_of_closed hc]
    · cases hl : b.isListening <;>
        simp [Bridge.stopListening, hb, hl, sendStopListening, sendEnvelope_of_closed hc]
  · intro b hb
    refine ⟨?_, ?_, ?_, ?_⟩ <;>
      simp [Bridge.speakTextNow, Bridge.interrupt, Bridge.startListening,
        Bridge.stopListening, hb]

/-- Witness for the amended claim C3 at a concrete disconnected bridge and a
concrete bridge without a channel. -/
theorem C3_disconnected_controls_witness :
    (Bridge.startListening
        { client := some cDisc, currentSpeakEventId := none, isListening := false }).isListening
      = true ∧
    Bridge.speakTextNow { client := none, currentSpeakEventId := none, isListening := false }
      = Except.error "HeyGen client not available" := by
  constructor
  · exact (C3_disconnected_controls.1
      { client := some cDisc, currentSpeakEventId := none, isListening := false }
      cDisc rfl rfl).2.2.2.2.1
  · exact (C3_disconnected_controls.2
      { client := none, currentSpeakEventId := none, isListening := false } rfl).1

/-- The input_text event with neither text nor content. -/
def eInputTextEmpty : OAIEvent := { type := "input_text" }

/-- A response.audio event with no audio and no delta payload. -/
def eAudioEmpty : OAIEvent := { type := "response.audio" }

/-- Claim C9, counterexample: an input_text event with neither text nor
content is not a no-op on an open, non-listening bridge: start_listening and
audio_buffer_clear are still issued and isListening flips to true. -/
theorem C9_counterexample :
    eInputTextEmpty.text = none ∧ eInputTextEmpty.content = none ∧
    (bOpen.processOpenAIEvent eInputTextEmpty).isListening = true ∧
    (bOpen.processOpenAIEvent eInputTextEmpty).client.map WSClient.sent =
      some [startListeningEvt "0", bufferClearEvt "1"] := by
  exact ⟨rfl, rfl, rfl, rfl⟩

/-- Claim C9, amended: an audio-chunk event whose payload is missing (neither
audio nor delta truthy) is a no-op for the bridge, as is every text-chunk
event; an input_text event with neither text nor content is handled as empty
text and still issues the listening commands. -/
theorem C9_missing_payload_noop :
    (∀ (b : Bridge) (e : OAIEvent),
      (e.type = "response.audio" ∨ e.type = "response.audio.delta") →
      audioPayload e = none → b.processOpenAIEvent e = b) ∧
    (∀ (b : Bridge) (e : OAIEvent),
      (e.type = "response.text" ∨ e.type = "response.text.delta") →
      b.processOpenAIEvent e = b) := by
  constructor
  · intro b e ht ha
    cases hb : b.client with
    | none => simp [Bridge.processOpenAIEvent, hb]
    | some c =>
        rcases ht with h | h <;> cases hopen : c.isConnectionOpen <;>
          simp [Bridge.processOpenAIEvent, hb, hopen, h, ha]
  · intro b e ht
    cases hb : b.client with
    | none => simp [Bridge.processOpenAIEvent, hb]
    | some c =>
        rcases ht with h | h <;> cases hopen : c.isConnectionOpen <;>
          simp [Bridge.processOpenAIEvent, hb, hopen, h]

/-- Witness for the amended claim C9 at a concrete payload-less audio event on
an open bridge. -/
theorem C9_missing_payload_noop_witness :
    audioPayload eAudioEmpty = none ∧
    bOpen.processOpenAIEvent eAudioEmpty = bOpen :=
  ⟨rfl, C9_missing_payload_noop.1 bOpen eAudioEmpty (Or.inl rfl) rfl⟩

/-- Claim C10: if the one-second continuation scheduled by speakText runs
after currentSpeakEventId has been cleared by another action (here: an
interrupt), it issues no agent.speak_end command, changes nothing, and
currentSpeakEventId remains null. -/
theorem C10_stale_speak_timeout (b : Bridge) (c : WSClient) (i : String)
    (hb : b.client = some c) (hid : b.currentSpeakEventId = some i) :
    b.interrupt.currentSpeakEventId = none ∧
    b.interrupt.speakTextTimeout = b.interrupt ∧
    b.interrupt.speakTextTimeout.currentSpeakEventId = none := by
  have h1 : b.interrupt =
      { b with client := some (sendInterrupt c).2, currentSpeakEventId := none } := by
    simp [Bridge.interrupt, hb, hid]
  rw [h1]
  exact ⟨rfl, rfl, rfl⟩

/-- A concrete speaking bridge for the claim C10 witness. -/
def bSpeaking : Bridge :=
  { client := some cOpen, currentSpeakEventId := some "X", isListening := false }

/-- Witness for claim C10 at a concrete speaking bridge interrupted before the
continuation runs. -/
theorem C10_stale_speak_timeout_witness :
    bSpeaking.currentSpeakEventId = some "X" ∧
    (bSpeaking.interrupt.currentSpeakEventId = none ∧
     bSpeaking.interrupt.speakTextTimeout = bSpeaking.interrupt ∧
     bSpeaking.interrupt.speakTextTimeout.currentSpeakEventId = none) :=
  ⟨rfl, C10_stale_speak_timeout bSpeaking cOpen "X" rfl rfl⟩
